import Mathlib

/-!
Shallow embedding of `drivers/input/fingerprint/fpc/fpc1020_platform_tee.c`
(FPC1020 fingerprint sensor platform driver).

The driver's side-effecting calls into the kernel (pinctrl selection,
regulator operations, IRQ enable/disable, sleeps, wake events, sysfs
notification) are modelled as an event trace `List Ev`; the driver's mutable
fields (`struct fpc1020_data` plus the function-local `static bool
irq_enabled` of `config_irq`) are collected in the structure `Fpc1020`.
Backend results (return codes of pinctrl/regulator calls, regulator
presence and status) are supplied by oracle parameters, mirroring the fact
that the C code receives them from external subsystems.

Config-conditional blocks (`CONFIG_MACH_LONGCHEER`,
`CONFIG_TOUCHSCREEN_COMMON`) are not part of the modelled configuration.
-/

namespace Fpc

/-- `#define FPC_TTW_HOLD_TIME 400` (line 48). -/
def FPC_TTW_HOLD_TIME : Nat := 400

/-- `#define RESET_LOW_SLEEP_MIN_US 5000` (line 49). -/
def RESET_LOW_SLEEP_MIN_US : Nat := 5000

/-- `RESET_LOW_SLEEP_MIN_US + 100` (line 50). -/
def RESET_LOW_SLEEP_MAX_US : Nat := RESET_LOW_SLEEP_MIN_US + 100

/-- `#define RESET_HIGH_SLEEP1_MIN_US 100` (line 51). -/
def RESET_HIGH_SLEEP1_MIN_US : Nat := 100

/-- `RESET_HIGH_SLEEP1_MIN_US + 100` (line 52). -/
def RESET_HIGH_SLEEP1_MAX_US : Nat := RESET_HIGH_SLEEP1_MIN_US + 100

/-- `#define RESET_HIGH_SLEEP2_MIN_US 5000` (line 53). -/
def RESET_HIGH_SLEEP2_MIN_US : Nat := 5000

/-- `RESET_HIGH_SLEEP2_MIN_US + 100` (line 54). -/
def RESET_HIGH_SLEEP2_MAX_US : Nat := RESET_HIGH_SLEEP2_MIN_US + 100

/-- `#define PWR_ON_SLEEP_MIN_US 100` (line 55). -/
def PWR_ON_SLEEP_MIN_US : Nat := 100

/-- `PWR_ON_SLEEP_MIN_US + 900` (line 56). -/
def PWR_ON_SLEEP_MAX_US : Nat := PWR_ON_SLEEP_MIN_US + 900

/-- Linux errno `EINVAL` (22); the driver returns `-EINVAL`. -/
def EINVAL : Int := 22

/-- Linux errno `ENOMEM` (12). -/
def ENOMEM : Int := 12

/-- Linux `EPROBE_DEFER` (517). -/
def EPROBE_DEFER : Int := 517

/-- `pctl_names` (lines 64-68): the three required pin-control state names. -/
def pctl_names : List String :=
  ["fpc1020_reset_reset", "fpc1020_reset_active", "fpc1020_irq_active"]

/-- `typedef enum { VDD_ANA = 0, VCC_SPI = 0, VDD_IO = 0, FPC_VREG_MAX, }
fpc_rails_t` (lines 70-75).  Note that the source assigns the value 0 to all
three rail enumerators, so `FPC_VREG_MAX`, being the successor, is 1. -/
def VDD_ANA : Int := 0

/-- `VCC_SPI = 0` in the `fpc_rails_t` enum (line 72). -/
def VCC_SPI : Int := 0

/-- `VDD_IO = 0` in the `fpc_rails_t` enum (line 73). -/
def VDD_IO : Int := 0

/-- `FPC_VREG_MAX` of the `fpc_rails_t` enum: the enumerator after
`VDD_IO = 0`, hence 1 (line 74). -/
def FPC_VREG_MAX : Int := 1

/-- One row of `static const struct vreg_config vreg_conf[]` (lines 77-88). -/
structure VregConf where
  name : String
  vmin : Nat
  vmax : Nat
  ua_load : Int
deriving DecidableEq

/-- `vreg_conf[]` (lines 84-88). -/
def vreg_conf : List VregConf :=
  [ { name := "vdd_ana", vmin := 1800000, vmax := 1800000, ua_load := 6000 },
    { name := "vcc_spi", vmin := 1800000, vmax := 1800000, ua_load := 10 },
    { name := "vdd_io", vmin := 1800000, vmax := 1800000, ua_load := 6000 } ]

/-- Backend view of one regulator (`struct regulator`), as far as the driver
observes it: whether voltage counting, enable/disable status and the return
codes of the regulator operations. -/
structure RegBackend where
  nVoltages : Int
  isEnabled : Bool
  rcSetVoltage : Int
  rcSetLoad : Int
  rcEnable : Int
deriving DecidableEq

/-- The fixed-size-3 array `struct regulator *vreg[ARRAY_SIZE(vreg_conf)]`
(line 94); a `none` entry is a NULL pointer. -/
structure VregArr where
  v0 : Option RegBackend
  v1 : Option RegBackend
  v2 : Option RegBackend
deriving DecidableEq

/-- Read `vreg[i]` of the 3-element array; `none` (outer) means the index is
out of bounds, i.e. the C access would be undefined behaviour. -/
def vregGet (a : VregArr) (i : Int) : Option (Option RegBackend) :=
  if i = 0 then some a.v0
  else if i = 1 then some a.v1
  else if i = 2 then some a.v2
  else none

/-- Read `vreg_conf[i]`; `none` means out of bounds. -/
def vreg_confGet (i : Int) : Option VregConf :=
  if i = 0 then some (vreg_conf.get ⟨0, by decide⟩)
  else if i = 1 then some (vreg_conf.get ⟨1, by decide⟩)
  else if i = 2 then some (vreg_conf.get ⟨2, by decide⟩)
  else none

/-- Events: the driver's calls into external subsystems, in program order. -/
inductive Ev where
  | readIrqGpio
  | pinSelect (name : String)
  | usleep (lo hi : Nat)
  | railSetupCall (rail : Int) (enable : Bool)
  | setVoltage (name : String) (vmin vmax : Nat)
  | setLoad (name : String) (ua : Int)
  | regEnable (name : String)
  | regDisable (name : String)
  | oobAccess (idx : Int)
  | configIrqCall (target : Bool)
  | osEnableIrq
  | osDisableIrq
  | pmWakeupEvent (ms : Nat)
  | sysfsNotify
deriving DecidableEq

/-- The driver's mutable state: the `bool`/`atomic_t` fields of
`struct fpc1020_data` (lines 90-108) together with the function-local
`static bool irq_enabled` of `config_irq` (line 313), which is process-wide
mutable state. -/
structure Fpc1020 where
  prepared : Bool
  fb_black : Bool
  wait_finger_down : Bool
  proximity_state : Bool
  wakeup_enabled : Bool
  irq_enabled : Bool
deriving DecidableEq

/-- State at the end of a successful `fpc1020_probe`: the structure is
`devm_kzalloc`ed (all fields false), `atomic_set(&wakeup_enabled, 0)`,
`fb_black = false`, `wait_finger_down = false` (lines 649, 716, 773-774),
and `config_irq`'s static `irq_enabled` is initialised `true` (line 313). -/
def fpc1020_init : Fpc1020 :=
  { prepared := false, fb_black := false, wait_finger_down := false,
    proximity_state := false, wakeup_enabled := false, irq_enabled := true }

/-- Backend oracles: pinctrl selection return codes and the regulator array. -/
structure Backend where
  pinRc : String → Int
  vreg : VregArr

/-- `select_pin_ctl` (lines 195-217): look the name up in `pctl_names`; if
found, perform `pinctrl_select_state` (whose return code the oracle supplies)
and return it; otherwise return `-EINVAL` without touching the backend. -/
def select_pin_ctl (pinRc : String → Int) (name : String) : Int × List Ev :=
  if pctl_names.contains name then (pinRc name, [Ev.pinSelect name])
  else (-EINVAL, [])

/-- Body of `vreg_setup` (lines 112-150) after the `vreg[fpc_rail]` array
read: `none` regulator returns `-EINVAL`; enable performs set-voltage (when
`regulator_count_voltages > 0`), set-load and `regulator_enable`, returning
the enable call's code (earlier failures are only logged); disable calls
`regulator_disable` only when `regulator_is_enabled`, and always returns 0. -/
def vreg_setup_core (conf : VregConf) (reg : Option RegBackend) (enable : Bool) :
    Int × List Ev :=
  match reg with
  | none => (-EINVAL, [])
  | some r =>
    if enable then
      (r.rcEnable,
        (if r.nVoltages > 0 then [Ev.setVoltage conf.name conf.vmin conf.vmax] else [])
          ++ [Ev.setLoad conf.name conf.ua_load, Ev.regEnable conf.name])
    else
      if r.isEnabled then (0, [Ev.regDisable conf.name]) else (0, [])

/-- `vreg_setup` (lines 112-150).  Its first action is the array read
`fpc1020->vreg[fpc_rail]` (and later `vreg_conf[fpc_rail]`); when the rail
index is outside `[0, 3)` that access is out of bounds — undefined behaviour
in C — recorded here as an `oobAccess` event (the returned code is then
meaningless).  The `railSetupCall` event marks the call itself. -/
def vreg_setup (a : VregArr) (rail : Int) (enable : Bool) : Int × List Ev :=
  match vregGet a rail, vreg_confGet rail with
  | some reg, some conf =>
    ((vreg_setup_core conf reg enable).1,
      Ev.railSetupCall rail enable :: (vreg_setup_core conf reg enable).2)
  | _, _ => (0, [Ev.railSetupCall rail enable, Ev.oobAccess rail])

/-- `hw_reset` (lines 276-293): read the IRQ gpio, select reset-active,
sleep 100-200us, select reset-reset, sleep 5000-5100us, select reset-active,
sleep 5000-5100us, read the IRQ gpio again.  All `select_pin_ctl` return
codes are discarded, the function returns `void`. -/
def hw_reset (pinRc : String → Int) : List Ev :=
  [Ev.readIrqGpio]
    ++ (select_pin_ctl pinRc "fpc1020_reset_active").2
    ++ [Ev.usleep RESET_HIGH_SLEEP1_MIN_US RESET_HIGH_SLEEP1_MAX_US]
    ++ (select_pin_ctl pinRc "fpc1020_reset_reset").2
    ++ [Ev.usleep RESET_LOW_SLEEP_MIN_US RESET_LOW_SLEEP_MAX_US]
    ++ (select_pin_ctl pinRc "fpc1020_reset_active").2
    ++ [Ev.usleep RESET_HIGH_SLEEP2_MIN_US RESET_HIGH_SLEEP2_MAX_US]
    ++ [Ev.readIrqGpio]

/-- `config_irq` (lines 311-325): under the lock, compare the target against
the static `irq_enabled`; on a change call `enable_irq`/`disable_irq` once
and record the new value; otherwise do nothing.  The `configIrqCall` event
marks the invocation itself. -/
def config_irq (s : Fpc1020) (enabled : Bool) : Fpc1020 × List Ev :=
  if enabled ≠ s.irq_enabled then
    ({ s with irq_enabled := enabled },
      [Ev.configIrqCall enabled, if enabled then Ev.osEnableIrq else Ev.osDisableIrq])
  else (s, [Ev.configIrqCall enabled])

/-- `device_prepare` (lines 339-369): power-up only when `enable` and not
prepared (select reset-reset, enable VCC_SPI, VDD_IO, VDD_ANA, sleep, select
reset-active); power-down only when `!enable` and prepared (select
reset-reset, sleep, disable VDD_ANA, VDD_IO, VCC_SPI); otherwise a no-op.
All backend return codes are discarded; the function returns `void`. -/
def device_prepare (b : Backend) (s : Fpc1020) (enable : Bool) : Fpc1020 × List Ev :=
  if enable && !s.prepared then
    ({ s with prepared := true },
      (select_pin_ctl b.pinRc "fpc1020_reset_reset").2
        ++ (vreg_setup b.vreg VCC_SPI true).2
        ++ (vreg_setup b.vreg VDD_IO true).2
        ++ (vreg_setup b.vreg VDD_ANA true).2
        ++ [Ev.usleep PWR_ON_SLEEP_MIN_US PWR_ON_SLEEP_MAX_US]
        ++ (select_pin_ctl b.pinRc "fpc1020_reset_active").2)
  else if !enable && s.prepared then
    ({ s with prepared := false },
      (select_pin_ctl b.pinRc "fpc1020_reset_reset").2
        ++ [Ev.usleep PWR_ON_SLEEP_MIN_US PWR_ON_SLEEP_MAX_US]
        ++ (vreg_setup b.vreg VDD_ANA false).2
        ++ (vreg_setup b.vreg VDD_IO false).2
        ++ (vreg_setup b.vreg VCC_SPI false).2)
  else (s, [])

/-- `fpc1020_irq_handler` (lines 486-495): `__pm_wakeup_event(ttw_ws, 400)`
then `sysfs_notify` on the `irq` attribute, unconditionally; it never reads
`wakeup_enabled`. -/
def fpc1020_irq_handler (_fpc1020 : Fpc1020) : List Ev :=
  [Ev.pmWakeupEvent FPC_TTW_HOLD_TIME, Ev.sysfsNotify]

/-- `name_to_fpc_rail` (lines 234-244). -/
def name_to_fpc_rail (name : String) : Int :=
  if name = "vdd_ana" then VDD_ANA
  else if name = "vcc_spi" then VCC_SPI
  else if name = "vdd_io" then VDD_IO
  else -EINVAL

/-- Models the C library `sscanf(buf, "%15[^,],%c", name, &op)` used by
`regulator_enable_store` (line 257): succeeds (returns 2 conversions) iff
the buffer starts with 1 to 15 non-comma characters, followed by a comma,
followed by at least one character. -/
def scan_name_op (buf : List Char) : Option (String × Char) :=
  let name := buf.takeWhile (fun c => c != ',')
  if name.length = 0 ∨ 15 < name.length then none
  else
    match buf.drop name.length with
    | ',' :: c :: _ => some (String.mk name, c)
    | _ => none

/-- Helper for `regulator_enable_store` after parsing: map the name to a
rail index (unchecked!) and call `vreg_setup`; return `rc ? rc : count`. -/
def regulator_enable_go (b : Backend) (s : Fpc1020) (name : String)
    (enable : Bool) (count : Int) : Int × Fpc1020 × List Ev :=
  ((if (vreg_setup b.vreg (name_to_fpc_rail name) enable).1 ≠ 0
      then (vreg_setup b.vreg (name_to_fpc_rail name) enable).1 else count),
    s, (vreg_setup b.vreg (name_to_fpc_rail name) enable).2)

/-- `regulator_enable_store` (lines 246-274): parse `"name,op"`; reject a
failed parse or an op other than `e`/`d` with `-EINVAL`; otherwise call
`vreg_setup` with `name_to_fpc_rail(name)` — without checking that result
for `-EINVAL`. -/
def regulator_enable_store (b : Backend) (s : Fpc1020) (buf : List Char)
    (count : Int) : Int × Fpc1020 × List Ev :=
  match scan_name_op buf with
  | none => (-EINVAL, s, [])
  | some (name, op) =>
    if op = 'e' then regulator_enable_go b s name true count
    else if op = 'd' then regulator_enable_go b s name false count
    else (-EINVAL, s, [])

/-- `fingerdown_wait_store` (lines 167-181). -/
def fingerdown_wait_store (s : Fpc1020) (buf : String) (count : Int) :
    Int × Fpc1020 :=
  if buf = "enable" then (count, { s with wait_finger_down := true })
  else if buf = "disable" then (count, { s with wait_finger_down := false })
  else (-EINVAL, s)

/-- `wakeup_enable_store` (lines 398-416). -/
def wakeup_enable_store (s : Fpc1020) (buf : String) (count : Int) :
    Int × Fpc1020 :=
  if buf = "enable" then (count, { s with wakeup_enabled := true })
  else if buf = "disable" then (count, { s with wakeup_enabled := false })
  else (-EINVAL, s)

/-- `device_prepare_store` (lines 376-392). -/
def device_prepare_store (b : Backend) (s : Fpc1020) (buf : String)
    (count : Int) : Int × Fpc1020 × List Ev :=
  if buf = "enable" then
    (count, device_prepare b s true)
  else if buf = "disable" then
    (count, device_prepare b s false)
  else (-EINVAL, s, [])

/-- `hw_reset_store` (lines 295-308). -/
def hw_reset_store (b : Backend) (s : Fpc1020) (buf : String) (count : Int) :
    Int × Fpc1020 × List Ev :=
  if buf = "reset" then (count, s, hw_reset b.pinRc)
  else (-EINVAL, s, [])

/-- Strip one trailing newline, as the kernel integer parsers allow. -/
def stripTrailingNl (cs : List Char) : List Char :=
  if cs.getLast? = some '\n' then cs.dropLast else cs

/-- Parse a non-empty all-digit character list as a natural number. -/
def parseNatDigits (cs : List Char) : Option Nat :=
  if cs.isEmpty then none
  else if cs.all (fun c => c.isDigit) then
    some (cs.foldl (fun a c => a * 10 + (c.toNat - 48)) 0)
  else none

/-- Models the kernel library `kstrtoint(buf, 10, &val)`: an optional sign,
base-10 digits, an optional single trailing newline; fails on anything else
or on overflow of a 32-bit signed int. -/
def kstrtoint (buf : List Char) : Option Int :=
  match stripTrailingNl buf with
  | '-' :: rest =>
    match parseNatDigits rest with
    | none => none
    | some n => if (2147483648 : Int) < (n : Int) then none else some (-(n : Int))
  | '+' :: rest =>
    match parseNatDigits rest with
    | none => none
    | some n => if (2147483647 : Int) < (n : Int) then none else some (n : Int)
  | cs =>
    match parseNatDigits cs with
    | none => none
    | some n => if (2147483647 : Int) < (n : Int) then none else some (n : Int)

/-- `proximity_state_store` (lines 443-467): parse the value (`-EINVAL` on
failure), record `proximity_state = !!val`, and only when `fb_black` call
`config_irq` (disable if covered, enable if uncovered). -/
def proximity_state_store (s : Fpc1020) (buf : List Char) (count : Int) :
    Int × Fpc1020 × List Ev :=
  match kstrtoint buf with
  | none => (-EINVAL, s, [])
  | some val =>
    if s.fb_black then
      if val != 0 then
        (count, config_irq { s with proximity_state := (val != 0) } false)
      else
        (count, config_irq { s with proximity_state := (val != 0) } true)
    else (count, { s with proximity_state := (val != 0) }, [])

/-- `FB_EVENT_BLANK` (include/linux/fb.h: 0x09). -/
def FB_EVENT_BLANK : Nat := 9

/-- `FB_BLANK_UNBLANK` (0). -/
def FB_BLANK_UNBLANK : Nat := 0

/-- `FB_BLANK_NORMAL` (1). -/
def FB_BLANK_NORMAL : Nat := 1

/-- `FB_BLANK_POWERDOWN` (4). -/
def FB_BLANK_POWERDOWN : Nat := 4

/-- `fpc_fb_notif_callback` (lines 518-553): ignore events other than
`FB_EVENT_BLANK` or with missing data; on `FB_BLANK_POWERDOWN` set
`fb_black := true` and disable the IRQ only if `proximity_state`; on
`FB_BLANK_UNBLANK`/`FB_BLANK_NORMAL` set `fb_black := false` and enable the
IRQ unconditionally; ignore other blank values. -/
def fpc_fb_notif_callback (s : Fpc1020) (val : Nat) (dataOk : Bool)
    (blank : Nat) : Fpc1020 × List Ev :=
  if val ≠ FB_EVENT_BLANK then (s, [])
  else if !dataOk then (s, [])
  else if blank = FB_BLANK_POWERDOWN then
    (if s.proximity_state then
      config_irq { s with fb_black := true } false
    else ({ s with fb_black := true }, []))
  else if blank = FB_BLANK_UNBLANK ∨ blank = FB_BLANK_NORMAL then
    config_irq { s with fb_black := false } true
  else (s, [])

/-- One external update feeding the Screen/Proximity policy: a write to the
`proximity_state` node or a framebuffer blank notification. -/
inductive PolicyUpdate where
  | proximityWrite (buf : List Char) (count : Int)
  | fbEvent (val : Nat) (dataOk : Bool) (blank : Nat)

/-- Apply one policy update to the driver state. -/
def policyStep (s : Fpc1020) : PolicyUpdate → Fpc1020 × List Ev
  | PolicyUpdate.proximityWrite buf count =>
    ((proximity_state_store s buf count).2.1, (proximity_state_store s buf count).2.2)
  | PolicyUpdate.fbEvent val dataOk blank => fpc_fb_notif_callback s val dataOk blank

/-- Run a sequence of policy updates, accumulating the event trace. -/
def runPolicy (s : Fpc1020) : List PolicyUpdate → Fpc1020 × List Ev
  | [] => (s, [])
  | u :: us =>
    ((runPolicy (policyStep s u).1 us).1,
      (policyStep s u).2 ++ (runPolicy (policyStep s u).1 us).2)

/-- Run a sequence of `config_irq` calls, accumulating the event trace. -/
def runConfigIrq (s : Fpc1020) : List Bool → Fpc1020 × List Ev
  | [] => (s, [])
  | t :: ts =>
    ((runConfigIrq (config_irq s t).1 ts).1,
      (config_irq s t).2 ++ (runConfigIrq (config_irq s t).1 ts).2)

/-- Number of actual value changes in a sequence of targets, starting from
`cur`: a target equal to the current value changes nothing; a different
target counts one change and becomes current. -/
def countChanges : Bool → List Bool → Nat
  | _, [] => 0
  | cur, t :: ts => (if t = cur then 0 else 1) + countChanges t ts

/-- The Screen/Proximity fusion table exactly as the spec states it
(spec section 4.3): blanked and covered yields disabled; blanked and
uncovered yields enabled; unblanked yields enabled regardless. -/
def fusion_target (blanked covered : Bool) : Bool :=
  match blanked, covered with
  | true, true => false
  | true, false => true
  | false, _ => true

/-- The exact condition under which a policy update invokes the IRQ gate
(`config_irq`): a successfully parsed proximity write while the display is
blanked; a powerdown blank event while proximity is covered; or an
unblank/normal blank event.  (Malformed proximity writes, non-blank fb
events and events with missing data invoke nothing.) -/
def gateInvoked (s : Fpc1020) : PolicyUpdate → Prop
  | PolicyUpdate.proximityWrite buf _ =>
    (kstrtoint buf).isSome = true ∧ s.fb_black = true
  | PolicyUpdate.fbEvent val dataOk blank =>
    val = FB_EVENT_BLANK ∧ dataOk = true
      ∧ ((blank = FB_BLANK_POWERDOWN ∧ s.proximity_state = true)
          ∨ blank = FB_BLANK_UNBLANK ∨ blank = FB_BLANK_NORMAL)

/-- Is the event an OS-level IRQ enable/disable primitive call? -/
def isOsIrqCall : Ev → Bool
  | Ev.osEnableIrq => true
  | Ev.osDisableIrq => true
  | _ => false

/-- Is the event an invocation of `config_irq` (the IRQ gate)? -/
def isConfigIrqCall : Ev → Bool
  | Ev.configIrqCall _ => true
  | _ => false

/-- Is the event a pin-configuration selection? -/
def isPinSelect : Ev → Bool
  | Ev.pinSelect _ => true
  | _ => false

/-- Is the event an invocation of `vreg_setup` (a rail call)? -/
def isRailSetupCall : Ev → Bool
  | Ev.railSetupCall _ _ => true
  | _ => false

/-- Is the event a `regulator_enable` backend call? -/
def isRegEnable : Ev → Bool
  | Ev.regEnable _ => true
  | _ => false

/-- Is the event one of the sequencing steps issued directly by
`device_prepare`/`hw_reset` (pin selection, rail call, sleep)? -/
def isStep : Ev → Bool
  | Ev.pinSelect _ => true
  | Ev.railSetupCall _ _ => true
  | Ev.usleep _ _ => true
  | _ => false

/-- The rail index carried by a `railSetupCall` event (0 otherwise). -/
def evRailIdx : Ev → Int
  | Ev.railSetupCall r _ => r
  | _ => 0

/-- A fully functional regulator backend, for concrete counterexamples. -/
def goodReg : RegBackend :=
  { nVoltages := 1, isEnabled := false, rcSetVoltage := 0, rcSetLoad := 0,
    rcEnable := 0 }

/-- A backend where every pinctrl call succeeds and all three regulator
slots are populated, for concrete counterexamples. -/
def goodBackend : Backend :=
  { pinRc := fun _ => 0,
    vreg := { v0 := some goodReg, v1 := some goodReg, v2 := some goodReg } }

/-- Result of `devm_pinctrl_get` (lines 690-699): success, probe deferral,
or another error. -/
inductive PinctrlGetRes where
  | ok
  | probeDefer
  | err
deriving DecidableEq

/-- Oracles for the external calls made by `fpc1020_probe` that decide its
control flow.  `regGetOk i` is success of `devm_regulator_get` for
`vreg_conf[i]`; `lookupOk n` is success of `pinctrl_lookup_state` for name
`n`; the `Rc` fields are the raw return codes of the corresponding calls. -/
structure ProbeEnv where
  allocOk : Bool
  hasOfNode : Bool
  regGetOk : Nat → Bool
  ofGpioRc : String → Int
  gpioReqRc : String → Int
  pinctrlGet : PinctrlGetRes
  lookupOk : String → Bool
  irqRc : Int
  sysfsRc : Int

/-- `fpc1020_get_regulators` (lines 622-639): fetch `vreg_conf[i]` for
`i < FPC_VREG_MAX` (which is 1); `-EINVAL` if any fetch fails. -/
def fpc1020_get_regulators (env : ProbeEnv) : Int :=
  if (List.range FPC_VREG_MAX.toNat).all env.regGetOk then 0 else -EINVAL

/-- `fpc1020_request_named_gpio` (lines 497-516): `of_get_named_gpio` then
`devm_gpio_request`; propagate the first failure. -/
def fpc1020_request_named_gpio (env : ProbeEnv) (label : String) : Int :=
  if env.ofGpioRc label < 0 then env.ofGpioRc label
  else if env.gpioReqRc label ≠ 0 then env.gpioReqRc label
  else 0

/-- The return value of `fpc1020_probe` (lines 641-779) as a function of the
backend oracles.  Steps that cannot change the return value (pin selections,
`atomic_set`, wakeup-source and notifier registration, the soc symlink,
`hw_reset`, optional `device_prepare`) are omitted: after the sysfs group is
created the function only ever returns `rc = 0`. -/
def fpc1020_probe (env : ProbeEnv) : Int :=
  if !env.allocOk then -ENOMEM
  else if !env.hasOfNode then -EINVAL
  else if fpc1020_get_regulators env ≠ 0 then fpc1020_get_regulators env
  else if fpc1020_request_named_gpio env "fpc,gpio_irq" ≠ 0 then -EINVAL
  else if fpc1020_request_named_gpio env "fpc,gpio_rst" ≠ 0 then -EINVAL
  else if env.pinctrlGet = PinctrlGetRes.probeDefer then -EPROBE_DEFER
  else if env.pinctrlGet = PinctrlGetRes.err then -EINVAL
  else if !(pctl_names.all env.lookupOk) then -EINVAL
  else if env.irqRc ≠ 0 then env.irqRc
  else if env.sysfsRc ≠ 0 then env.sysfsRc
  else 0

/-- A probe environment where everything succeeds except the lookup of the
`fpc1020_irq_active` pin state, for the C10 witness. -/
def envMissingPin : ProbeEnv :=
  { allocOk := true, hasOfNode := true, regGetOk := fun _ => true,
    ofGpioRc := fun _ => 5, gpioReqRc := fun _ => 0,
    pinctrlGet := PinctrlGetRes.ok,
    lookupOk := fun n => n != "fpc1020_irq_active",
    irqRc := 0, sysfsRc := 0 }

/-! ## Helper lemmas -/

/-- The events emitted inside `vreg_setup_core` are regulator backend calls
only; none of them is a `railSetupCall` marker. -/
theorem vreg_setup_core_filter_marker (conf : VregConf) (reg : Option RegBackend)
    (en : Bool) : (vreg_setup_core conf reg en).2.filter isRailSetupCall = [] := by
  unfold vreg_setup_core
  cases reg with
  | none => rfl
  | some r =>
    cases en with
    | true =>
      by_cases hv : r.nVoltages > 0 <;> simp [hv, isRailSetupCall]
    | false =>
      by_cases he : r.isEnabled <;> simp [he, isRailSetupCall]

/-- None of the events emitted inside `vreg_setup_core` is a sequencing
step (pin selection, rail-call marker, sleep). -/
theorem vreg_setup_core_filter_isStep (conf : VregConf) (reg : Option RegBackend)
    (en : Bool) : (vreg_setup_core conf reg en).2.filter isStep = [] := by
  unfold vreg_setup_core
  cases reg with
  | none => rfl
  | some r =>
    cases en with
    | true =>
      by_cases hv : r.nVoltages > 0 <;> simp [hv, isStep]
    | false =>
      by_cases he : r.isEnabled <;> simp [he, isStep]

/-- Every `vreg_setup` call, whatever the backend state and rail index,
contributes exactly its own invocation marker to the rail-call trace. -/
theorem vreg_setup_filter_marker (a : VregArr) (rail : Int) (en : Bool) :
    (vreg_setup a rail en).2.filter isRailSetupCall = [Ev.railSetupCall rail en] := by
  unfold vreg_setup
  cases hg : vregGet a rail with
  | none => simp [isRailSetupCall]
  | some reg =>
    cases hc : vreg_confGet rail with
    | none => simp [isRailSetupCall]
    | some conf => simp [isRailSetupCall, vreg_setup_core_filter_marker]

/-- Every `vreg_setup` call contributes exactly its own invocation marker
to the step trace. -/
theorem vreg_setup_filter_isStep (a : VregArr) (rail : Int) (en : Bool) :
    (vreg_setup a rail en).2.filter isStep = [Ev.railSetupCall rail en] := by
  unfold vreg_setup
  cases hg : vregGet a rail with
  | none => simp [isStep]
  | some reg =>
    cases hc : vreg_confGet rail with
    | none => simp [isStep]
    | some conf => simp [isStep, vreg_setup_core_filter_isStep]

/-- Selecting the reset-asserted configuration emits exactly its pin event. -/
theorem select_pin_ctl_reset_events (p : String → Int) :
    (select_pin_ctl p "fpc1020_reset_reset").2 = [Ev.pinSelect "fpc1020_reset_reset"] := rfl

/-- Selecting the reset-released configuration emits exactly its pin event. -/
theorem select_pin_ctl_active_events (p : String → Int) :
    (select_pin_ctl p "fpc1020_reset_active").2 = [Ev.pinSelect "fpc1020_reset_active"] := rfl

/-- The OS IRQ primitive calls of a `config_irq` trace are counted exactly
by the number of actual value changes of the gate state. -/
theorem runConfigIrq_os_count (ts : List Bool) : ∀ s : Fpc1020,
    ((runConfigIrq s ts).2.filter isOsIrqCall).length = countChanges s.irq_enabled ts := by
  induction ts with
  | nil => intro s; rfl
  | cons t ts ih =>
    intro s
    by_cases h : t = s.irq_enabled
    · subst h
      have hcfg : config_irq s s.irq_enabled = (s, [Ev.configIrqCall s.irq_enabled]) := by
        simp [config_irq]
      simp [runConfigIrq, hcfg, countChanges, isOsIrqCall, ih s]
    · have hcfg : config_irq s t =
        ({ s with irq_enabled := t },
          [Ev.configIrqCall t, if t then Ev.osEnableIrq else Ev.osDisableIrq]) := by
        simp [config_irq, h]
      have hih := ih { s with irq_enabled := t }
      cases t <;> simp_all [runConfigIrq, countChanges, isOsIrqCall] <;> omega

/-! ## Claims -/

/-- C1: for every sequence of `config_irq` targets starting from the state
at driver attach (gate state `true`), the OS enable/disable primitive is
invoked exactly once per actual change of the shared last-applied state,
it is never invoked on a call whose target equals the last-applied state
(such a call leaves the state untouched and emits no OS call), and after
each call the last-applied state equals that call's target. -/
theorem c1_irq_gate_single_transition (ts : List Bool) :
    fpc1020_init.irq_enabled = true
    ∧ ((runConfigIrq fpc1020_init ts).2.filter isOsIrqCall).length = countChanges true ts
    ∧ (∀ s : Fpc1020, config_irq s s.irq_enabled = (s, [Ev.configIrqCall s.irq_enabled]))
    ∧ (∀ (s : Fpc1020) (t : Bool), (config_irq s t).1.irq_enabled = t) := by
  refine ⟨rfl, runConfigIrq_os_count ts fpc1020_init, ?_, ?_⟩
  · intro s
    simp [config_irq]
  · intro s t
    by_cases h : t = s.irq_enabled <;> simp [config_irq, h]

/-- C2 counterexample: `hw_reset` performs three pin-configuration
selections (reset-active, reset-reset, reset-active), not the four
selections in the order reset-low, reset-high, reset-low, reset-high that
the claim states. -/
theorem c2_counterexample :
    ((hw_reset (fun _ => 0)).filter isPinSelect).length = 3
    ∧ ((hw_reset (fun _ => 0)).filter isPinSelect)
        ≠ [Ev.pinSelect "fpc1020_reset_reset", Ev.pinSelect "fpc1020_reset_active",
           Ev.pinSelect "fpc1020_reset_reset", Ev.pinSelect "fpc1020_reset_active"] := by
  constructor
  · rfl
  · decide

/-- C2 (amended): every call to `hw_reset` reads the interrupt line, then
performs exactly three selections in the order reset-active (high),
reset-reset (low), reset-active (high), sleeping 100-200us after the first
high selection, 5000-5100us after the low selection and 5000-5100us after
the final high selection, then re-reads the interrupt line; the sequence is
the same for every pinctrl backend, so no selection is omitted when an
intermediate backend call fails. -/
theorem c2_hw_reset_sequence (pinRc : String → Int) :
    hw_reset pinRc =
      [Ev.readIrqGpio,
       Ev.pinSelect "fpc1020_reset_active",
       Ev.usleep RESET_HIGH_SLEEP1_MIN_US RESET_HIGH_SLEEP1_MAX_US,
       Ev.pinSelect "fpc1020_reset_reset",
       Ev.usleep RESET_LOW_SLEEP_MIN_US RESET_LOW_SLEEP_MAX_US,
       Ev.pinSelect "fpc1020_reset_active",
       Ev.usleep RESET_HIGH_SLEEP2_MIN_US RESET_HIGH_SLEEP2_MAX_US,
       Ev.readIrqGpio]
    ∧ RESET_HIGH_SLEEP1_MIN_US = 100 ∧ RESET_HIGH_SLEEP1_MAX_US = 200
    ∧ RESET_LOW_SLEEP_MIN_US = 5000 ∧ RESET_LOW_SLEEP_MAX_US = 5100
    ∧ RESET_HIGH_SLEEP2_MIN_US = 5000 ∧ RESET_HIGH_SLEEP2_MAX_US = 5100 :=
  ⟨rfl, rfl, rfl, rfl, rfl, rfl, rfl⟩

/-- C5 counterexample: in the attach state the `WakeEnabled` flag is clear,
yet the interrupt handler still arms the 400 ms timed wake assertion — so
arming does not happen "if and only if the flag is set". -/
theorem c5_counterexample :
    ¬ ((Ev.pmWakeupEvent FPC_TTW_HOLD_TIME ∈ fpc1020_irq_handler fpc1020_init)
        ↔ fpc1020_init.wakeup_enabled = true) := by
  decide

/-- C5 (amended): on each hardware interrupt event the handler
unconditionally arms the 400 ms timed wake assertion, regardless of the
`WakeEnabled` flag, and in every case emits the state-change notification
on the interrupt attribute. -/
theorem c5_irq_handler_unconditional (s : Fpc1020) :
    fpc1020_irq_handler s = [Ev.pmWakeupEvent FPC_TTW_HOLD_TIME, Ev.sysfsNotify]
    ∧ FPC_TTW_HOLD_TIME = 400 :=
  ⟨rfl, rfl⟩

/-- C6: `set_powered` is idempotent.  Calling `device_prepare` with `true`
on an already-prepared state, or with `false` on an already-unprepared
state, changes nothing and emits no event (no pin selection, no rail call);
two consecutive `true` calls from unprepared produce exactly one
rail-enable sequence (the second call contributes nothing). -/
theorem c6_set_powered_idempotent (b : Backend) (s : Fpc1020) :
    device_prepare b { s with prepared := true } true = ({ s with prepared := true }, [])
    ∧ device_prepare b { s with prepared := false } false = ({ s with prepared := false }, [])
    ∧ device_prepare b (device_prepare b { s with prepared := false } true).1 true
        = ((device_prepare b { s with prepared := false } true).1, [])
    ∧ (((device_prepare b { s with prepared := false } true).2
          ++ (device_prepare b (device_prepare b { s with prepared := false } true).1 true).2).filter
            isRailSetupCall)
        = [Ev.railSetupCall VCC_SPI true, Ev.railSetupCall VDD_IO true,
           Ev.railSetupCall VDD_ANA true] := by
  refine ⟨?_, ?_, ?_, ?_⟩
  · simp [device_prepare]
  · simp [device_prepare]
  · simp [device_prepare]
  · simp [device_prepare, List.filter_append, vreg_setup_filter_marker,
      select_pin_ctl_reset_events, select_pin_ctl_active_events, isRailSetupCall]

/-- C3 counterexample: the three rail-enable calls of a power-up from the
attach state all carry the same rail index (the `fpc_rails_t` enum assigns
0 to all three enumerators), so the rails enabled are not distinct, and
every one of the three `regulator_enable` backend calls targets the
regulator configured as `vdd_ana`. -/
theorem c3_counterexample :
    ¬ ((((device_prepare goodBackend fpc1020_init true).2.filter isRailSetupCall).map
          evRailIdx).Nodup)
    ∧ ((device_prepare goodBackend fpc1020_init true).2.filter isRegEnable)
        = [Ev.regEnable "vdd_ana", Ev.regEnable "vdd_ana", Ev.regEnable "vdd_ana"] := by
  constructor
  · decide
  · rfl

/-- C3 (amended): `set_powered(true)` from the unprepared state issues the
three rail-enable calls in the source order `VCC_SPI`, `VDD_IO`, `VDD_ANA`,
and `set_powered(false)` from the prepared state issues the three disable
calls in the exact reverse order `VDD_ANA`, `VDD_IO`, `VCC_SPI` — but all
three rail identifiers equal 0, so every call addresses the same regulator
slot rather than three distinct rails. -/
theorem c3_rail_order (b : Backend) (s : Fpc1020) :
    ((device_prepare b { s with prepared := false } true).2.filter isRailSetupCall)
      = [Ev.railSetupCall VCC_SPI true, Ev.railSetupCall VDD_IO true,
         Ev.railSetupCall VDD_ANA true]
    ∧ ((device_prepare b { s with prepared := true } false).2.filter isRailSetupCall)
      = [Ev.railSetupCall VDD_ANA false, Ev.railSetupCall VDD_IO false,
         Ev.railSetupCall VCC_SPI false]
    ∧ VDD_ANA = 0 ∧ VCC_SPI = 0 ∧ VDD_IO = 0 := by
  refine ⟨?_, ?_, rfl, rfl, rfl⟩
  · simp [device_prepare, List.filter_append, vreg_setup_filter_marker,
      select_pin_ctl_reset_events, select_pin_ctl_active_events, isRailSetupCall]
  · simp [device_prepare, List.filter_append, vreg_setup_filter_marker,
      select_pin_ctl_reset_events, select_pin_ctl_active_events, isRailSetupCall]

/-- C7: neither `set_powered` nor `hw_reset` propagates a rail or pin-select
failure — both return `void` in the source, and for every backend (including
any combination of failing pinctrl and regulator calls) the full fixed
sequence of steps is issued: the power-up and power-down step skeletons and
the reset skeleton are the same for all backends.  Moreover a disable call
on a rail whose regulator reports already-disabled returns 0 and performs no
`regulator_disable` backend call. -/
theorem c7_failures_not_propagated (b : Backend) (s : Fpc1020) (a : VregArr)
    (r : RegBackend) :
    ((device_prepare b { s with prepared := false } true).2.filter isStep)
      = [Ev.pinSelect "fpc1020_reset_reset",
         Ev.railSetupCall VCC_SPI true, Ev.railSetupCall VDD_IO true,
         Ev.railSetupCall VDD_ANA true,
         Ev.usleep PWR_ON_SLEEP_MIN_US PWR_ON_SLEEP_MAX_US,
         Ev.pinSelect "fpc1020_reset_active"]
    ∧ ((device_prepare b { s with prepared := true } false).2.filter isStep)
      = [Ev.pinSelect "fpc1020_reset_reset",
         Ev.usleep PWR_ON_SLEEP_MIN_US PWR_ON_SLEEP_MAX_US,
         Ev.railSetupCall VDD_ANA false, Ev.railSetupCall VDD_IO false,
         Ev.railSetupCall VCC_SPI false]
    ∧ ((hw_reset b.pinRc).filter isStep)
      = [Ev.pinSelect "fpc1020_reset_active",
         Ev.usleep RESET_HIGH_SLEEP1_MIN_US RESET_HIGH_SLEEP1_MAX_US,
         Ev.pinSelect "fpc1020_reset_reset",
         Ev.usleep RESET_LOW_SLEEP_MIN_US RESET_LOW_SLEEP_MAX_US,
         Ev.pinSelect "fpc1020_reset_active",
         Ev.usleep RESET_HIGH_SLEEP2_MIN_US RESET_HIGH_SLEEP2_MAX_US]
    ∧ vreg_setup { a with v0 := some { r with isEnabled := false } } VDD_ANA false
        = (0, [Ev.railSetupCall VDD_ANA false]) := by
  refine ⟨?_, ?_, ?_, ?_⟩
  · simp [device_prepare, List.filter_append, vreg_setup_filter_isStep,
      select_pin_ctl_reset_events, select_pin_ctl_active_events, isStep]
  · simp [device_prepare, List.filter_append, vreg_setup_filter_isStep,
      select_pin_ctl_reset_events, select_pin_ctl_active_events, isStep]
  · simp [hw_reset, List.filter_append,
      select_pin_ctl_reset_events, select_pin_ctl_active_events, isStep]
  · rfl

/-- C8: evaluation at the failing input.  A write of `"nosuchrail,e"` to the
`regulator_enable` node parses successfully, `name_to_fpc_rail` yields
`-EINVAL` (= -22), and `regulator_enable_store` passes that value unchecked
to `vreg_setup`, whose first action is then an out-of-bounds read of
`vreg[-22]`/`vreg_conf[-22]` — the command is not rejected synchronously
with `-EINVAL` as the claim requires. -/
theorem c8_unrecognized_rail_not_rejected (b : Backend) (s : Fpc1020) :
    (regulator_enable_store b s ("nosuchrail,e".toList) 12).2.2
      = [Ev.railSetupCall (-EINVAL) true, Ev.oobAccess (-EINVAL)]
    ∧ name_to_fpc_rail "nosuchrail" = -EINVAL := by
  constructor
  · rfl
  · rfl

/-- C9: evaluation at the failing input.  For a well-formed `"name,op"`
write whose name is none of `vdd_ana`, `vcc_spi`, `vdd_io`, the rail index
computed by `name_to_fpc_rail` is `-EINVAL` (= -22), which is outside the
bounds of both 3-element arrays, and `regulator_enable_store` does use it
as an index: the resulting trace reaches the out-of-bounds access. -/
theorem c9_rail_index_out_of_bounds (a : VregArr) (b : Backend) (s : Fpc1020) :
    name_to_fpc_rail "foo" = -EINVAL
    ∧ vregGet a (-EINVAL) = none
    ∧ vreg_confGet (-EINVAL) = none
    ∧ Ev.oobAccess (-EINVAL) ∈ (regulator_enable_store b s ("foo,e".toList) 5).2.2 := by
  refine ⟨rfl, ?_, ?_, ?_⟩
  · simp [vregGet, EINVAL]
  · simp [vreg_confGet, EINVAL]
  · show Ev.oobAccess (-EINVAL) ∈ [Ev.railSetupCall (-EINVAL) true, Ev.oobAccess (-EINVAL)]
    simp

/-- One policy update preserves the fusion invariant: if the IRQ gate's
last-applied state equals the fusion-table value of the current screen and
proximity state, it still does after the update. -/
theorem policyStep_preserves (s : Fpc1020) (u : PolicyUpdate)
    (h : s.irq_enabled = fusion_target s.fb_black s.proximity_state) :
    (policyStep s u).1.irq_enabled
      = fusion_target (policyStep s u).1.fb_black (policyStep s u).1.proximity_state := by
  obtain ⟨p, fb, w, px, we, irq⟩ := s
  cases u with
  | proximityWrite buf count =>
    simp only [policyStep, proximity_state_store]
    cases hk : kstrtoint buf with
    | none => simpa using h
    | some v =>
      dsimp only
      generalize (v != 0) = c
      cases c <;> cases fb <;> cases px <;> cases irq <;>
        simp_all [config_irq, fusion_target]
  | fbEvent val dataOk blank =>
    simp only [policyStep, fpc_fb_notif_callback]
    by_cases h9 : val = FB_EVENT_BLANK
    · cases dataOk with
      | false => simp_all [fusion_target]
      | true =>
        by_cases h4 : blank = FB_BLANK_POWERDOWN
        · cases fb <;> cases px <;> cases irq <;>
            simp_all [config_irq, fusion_target]
        · by_cases h01 : blank = FB_BLANK_UNBLANK ∨ blank = FB_BLANK_NORMAL
          · cases fb <;> cases px <;> cases irq <;>
              simp_all [config_irq, fusion_target]
          · simp_all [fusion_target]
    · simp_all [fusion_target]

/-- Whenever a policy update does invoke the IRQ gate, the target it passes
equals the fusion-table value of the state resulting from that update. -/
theorem policyStep_call_target (s : Fpc1020) (u : PolicyUpdate) (t : Bool)
    (hm : Ev.configIrqCall t ∈ (policyStep s u).2) :
    t = fusion_target (policyStep s u).1.fb_black (policyStep s u).1.proximity_state := by
  obtain ⟨p, fb, w, px, we, irq⟩ := s
  cases u with
  | proximityWrite buf count =>
    simp only [policyStep, proximity_state_store] at hm ⊢
    cases hk : kstrtoint buf with
    | none => simp [hk] at hm
    | some v =>
      rw [hk] at hm
      dsimp only at hm ⊢
      generalize (v != 0) = c at hm ⊢
      cases c <;> cases fb <;> cases irq <;>
        simp_all [config_irq, fusion_target]
  | fbEvent val dataOk blank =>
    simp only [policyStep, fpc_fb_notif_callback] at hm ⊢
    by_cases h9 : val = FB_EVENT_BLANK
    · cases dataOk with
      | false => simp_all
      | true =>
        by_cases h4 : blank = FB_BLANK_POWERDOWN
        · cases px <;> cases irq <;> simp_all [config_irq, fusion_target]
        · by_cases h01 : blank = FB_BLANK_UNBLANK ∨ blank = FB_BLANK_NORMAL
          · cases px <;> cases irq <;> simp_all [config_irq, fusion_target]
          · simp_all
    · simp_all

/-- A policy update invokes the IRQ gate exactly under `gateInvoked`: on a
successfully parsed proximity write while blanked, on a powerdown blank
event while covered, or on an unblank/normal blank event — and in no other
case. -/
theorem policyStep_invokes_iff (s : Fpc1020) (u : PolicyUpdate) :
    (∃ t, Ev.configIrqCall t ∈ (policyStep s u).2) ↔ gateInvoked s u := by
  obtain ⟨p, fb, w, px, we, irq⟩ := s
  cases u with
  | proximityWrite buf count =>
    simp only [policyStep, proximity_state_store, gateInvoked]
    cases hk : kstrtoint buf with
    | none => simp
    | some v =>
      dsimp only
      generalize (v != 0) = c
      cases c <;> cases fb <;> cases irq <;>
        simp [config_irq]
  | fbEvent val dataOk blank =>
    simp only [policyStep, fpc_fb_notif_callback, gateInvoked]
    by_cases h9 : val = FB_EVENT_BLANK
    · cases dataOk with
      | false => simp_all
      | true =>
        by_cases h4 : blank = FB_BLANK_POWERDOWN
        · cases px <;> cases irq <;>
            simp_all [config_irq, FB_BLANK_POWERDOWN, FB_BLANK_UNBLANK, FB_BLANK_NORMAL]
        · by_cases h01 : blank = FB_BLANK_UNBLANK ∨ blank = FB_BLANK_NORMAL
          · cases irq <;> simp_all [config_irq]
          · simp_all
    · simp_all

/-- The fusion invariant holds after any run of policy updates from any
state satisfying it. -/
theorem runPolicy_fusion (us : List PolicyUpdate) : ∀ s : Fpc1020,
    s.irq_enabled = fusion_target s.fb_black s.proximity_state →
    (runPolicy s us).1.irq_enabled
      = fusion_target (runPolicy s us).1.fb_black (runPolicy s us).1.proximity_state := by
  induction us with
  | nil => intro s h; simpa [runPolicy] using h
  | cons u us ih =>
    intro s h
    exact ih (policyStep s u).1 (policyStep_preserves s u h)

/-- C4 counterexample: from the attach state (display not blanked), a
proximity write of `"1"` updates the proximity-covered state but invokes
`config_irq` zero times — the claimed invocation of `set_irq_enabled` after
every proximity update does not happen. -/
theorem c4_counterexample :
    (proximity_state_store fpc1020_init ['1'] 2).2.1.proximity_state = true
    ∧ fpc1020_init.fb_black = false
    ∧ ((proximity_state_store fpc1020_init ['1'] 2).2.2.filter isConfigIrqCall) = [] := by
  refine ⟨rfl, rfl, rfl⟩

/-- C4 (amended): after every sequence of display-blank and proximity
updates starting at attach, the IRQ gate's last-applied state equals the
fusion-table value of the current screen and proximity state; whenever an
update does invoke `set_irq_enabled`, the target passed is exactly that
fusion-table value; and the gate is invoked exactly when a successfully
parsed proximity write arrives while the display is blanked, a powerdown
blank event arrives while proximity is covered, or an unblank/normal blank
event arrives (`gateInvoked`) — in every other case it is not invoked and
the already-applied state equals the table value. -/
theorem c4_policy_fusion (us : List PolicyUpdate) :
    ((runPolicy fpc1020_init us).1.irq_enabled
      = fusion_target (runPolicy fpc1020_init us).1.fb_black
          (runPolicy fpc1020_init us).1.proximity_state)
    ∧ (∀ (s : Fpc1020) (u : PolicyUpdate) (t : Bool),
        Ev.configIrqCall t ∈ (policyStep s u).2 →
        t = fusion_target (policyStep s u).1.fb_black (policyStep s u).1.proximity_state)
    ∧ (∀ (s : Fpc1020) (u : PolicyUpdate),
        (∃ t, Ev.configIrqCall t ∈ (policyStep s u).2) ↔ gateInvoked s u) :=
  ⟨runPolicy_fusion us fpc1020_init rfl,
   fun s u t hm => policyStep_call_target s u t hm,
   fun s u => policyStep_invokes_iff s u⟩

/-- C4 witness: a concrete update (screen unblank at attach) does invoke the
gate, with target `true`, which equals the fusion value of the resulting
state. -/
theorem c4_policy_fusion_witness :
    Ev.configIrqCall true
        ∈ (policyStep fpc1020_init (PolicyUpdate.fbEvent 9 true 0)).2
    ∧ true = fusion_target
        (policyStep fpc1020_init (PolicyUpdate.fbEvent 9 true 0)).1.fb_black
        (policyStep fpc1020_init (PolicyUpdate.fbEvent 9 true 0)).1.proximity_state :=
  ⟨by decide,
   (c4_policy_fusion []).2.1 fpc1020_init (PolicyUpdate.fbEvent 9 true 0) true (by decide)⟩

/-- C10: attach fails — `fpc1020_probe` returns a nonzero (error) value —
whenever any one of the three required pin configuration names of
`pctl_names` cannot be looked up, for every combination of outcomes of the
other probe-time calls. -/
theorem c10_attach_missing_pin_fails (env : ProbeEnv) (n : String)
    (hn : n ∈ pctl_names) (hmiss : env.lookupOk n = false) :
    fpc1020_probe env ≠ 0 := by
  have hall : pctl_names.all env.lookupOk = false := by
    cases hcase : pctl_names.all env.lookupOk with
    | false => rfl
    | true =>
      have hthis := List.all_eq_true.mp hcase n hn
      rw [hmiss] at hthis
      exact absurd hthis (by decide)
  unfold fpc1020_probe
  repeat' split
  all_goals first
    | assumption
    | decide
    | simp_all

/-- C10 witness: with every other probe-time call succeeding but the lookup
of `fpc1020_irq_active` failing, probing returns an error. -/
theorem c10_attach_missing_pin_fails_witness :
    ("fpc1020_irq_active" ∈ pctl_names
      ∧ envMissingPin.lookupOk "fpc1020_irq_active" = false)
    ∧ fpc1020_probe envMissingPin ≠ 0 :=
  ⟨⟨by decide, by decide⟩,
   c10_attach_missing_pin_fails envMissingPin "fpc1020_irq_active" (by decide) (by decide)⟩

end Fpc
